import Mathlib

/-!
Shallow embedding of `src/BankStatementOCR/transaction_parser.py` (class
`TransactionParser`).  Strings are modelled as `List Char` / `String`
(Python strings are sequences of code points, and `String.length` counts
code points like Python `len`).  Python `float` values are modelled as `ℚ`:
every amount literal the parser can produce is a finite decimal, and the
only comparisons the code performs on amounts are sign tests and equality
against decimal literals, for which the rational model agrees with IEEE
doubles.  The three regular expressions of the source are compiled by hand
into deterministic matchers that reproduce Python `re` leftmost/greedy
backtracking semantics for those concrete patterns.  The `datetime.now()`
clock is made an explicit `nowYear` parameter.  Unicode details that the
claims never exercise (non-ASCII digits, whitespace beyond ASCII, `str.lower`
beyond ASCII plus the accented letters appearing in the patterns, and the
`inf`/`nan`/underscore forms of Python `float()`) are modelled by their
ASCII/French-letter restrictions, as noted at each definition.
-/

set_option maxRecDepth 8192

namespace BankOCR

/-- Characters matched by the regex class `[a-zA-Zàâäéèêëïîôöùûüÿ]` used in
`date_pattern` and `transaction_pattern`. -/
def isFrenchLetter (c : Char) : Bool :=
  c.isAlpha || ['à','â','ä','é','è','ê','ë','ï','î','ô','ö','ù','û','ü','ÿ'].contains c

/-- Characters matched by regex `\s` and stripped by `str.strip()`
(ASCII whitespace; Python additionally matches rare Unicode whitespace,
never exercised here). -/
def isPySpace (c : Char) : Bool :=
  c == ' ' || c == '\t' || c == '\n' || c == '\r' || c == Char.ofNat 11 || c == Char.ofNat 12

/-- Model of Python `str.lower()` restricted to ASCII plus the uppercase
forms of the accented letters in the parser's character class. -/
def pyLower (c : Char) : Char :=
  if c = 'À' then 'à' else if c = 'Â' then 'â' else if c = 'Ä' then 'ä'
  else if c = 'É' then 'é' else if c = 'È' then 'è' else if c = 'Ê' then 'ê'
  else if c = 'Ë' then 'ë' else if c = 'Ï' then 'ï' else if c = 'Î' then 'î'
  else if c = 'Ô' then 'ô' else if c = 'Ö' then 'ö' else if c = 'Ù' then 'ù'
  else if c = 'Û' then 'û' else if c = 'Ü' then 'ü' else if c = 'Ÿ' then 'ÿ'
  else c.toLower

/-- Characters matched by regex `\w` (for the `\b` boundaries of the year
scan): ASCII alphanumerics, underscore, and the accented letters of the
parser's locale. -/
def isWordChar (c : Char) : Bool :=
  c.isAlphanum || c == '_' || isFrenchLetter c

/-- Numeric value of a list of decimal digit characters (Python `int`). -/
def digitsVal (l : List Char) : Nat :=
  l.foldl (fun a c => 10 * a + (c.toNat - 48)) 0

/-- Model of Python `str.strip()`. -/
def pyStrip (l : List Char) : List Char :=
  ((l.dropWhile isPySpace).reverse.dropWhile isPySpace).reverse

/-! ## The date regex `(\d{1,2})\s*([a-zA-Zàâäéèêëïîôöùûüÿ]+)\.?\s*(\d{4})?` -/

/-- Result of one match of `date_pattern`: `day` is `int(group(1))`,
`month` is group 2, `year` is `int(group(3))` when group 3 matched, and
`len` is the length of `group(0)` (the whole match). -/
structure DateMatch where
  day : Nat
  month : List Char
  year : Option Nat
  len : Nat
deriving DecidableEq

/-- Match the part of `date_pattern` after group 1 (`\s*(letters+)\.?\s*(\d{4})?`),
given the digits already consumed for group 1.  All quantifiers here are
greedy and never need to backtrack because the relevant character classes
are pairwise disjoint and everything after the month letters can match the
empty string. -/
def matchDateTail (dayDigits : List Char) (rest : List Char) : Option DateMatch :=
  let sp1 := rest.takeWhile isPySpace
  let r1 := rest.dropWhile isPySpace
  let letters := r1.takeWhile isFrenchLetter
  if letters.isEmpty then none
  else
    let r2 := r1.dropWhile isFrenchLetter
    let dotLen : Nat := match r2 with
      | '.' :: _ => 1
      | _ => 0
    let r3 := r2.drop dotLen
    let sp2 := r3.takeWhile isPySpace
    let r4 := r3.dropWhile isPySpace
    let yearInfo : Option Nat × Nat := match r4 with
      | a :: b :: c :: d :: _ =>
        if a.isDigit && b.isDigit && c.isDigit && d.isDigit then
          (some (digitsVal [a, b, c, d]), 4)
        else (none, 0)
      | _ => (none, 0)
    some { day := digitsVal dayDigits, month := letters, year := yearInfo.1,
           len := dayDigits.length + sp1.length + letters.length + dotLen
                  + sp2.length + yearInfo.2 }

/-- Try to match `date_pattern` anchored at the start of `s`.  `\d{1,2}` is
greedy: two digits are tried first, then one (Python backtracking). -/
def matchDateAt (s : List Char) : Option DateMatch :=
  match s with
  | [] => none
  | [a] => if a.isDigit then matchDateTail [a] [] else none
  | a :: b :: rest =>
    if a.isDigit then
      if b.isDigit then
        match matchDateTail [a, b] rest with
        | some m => some m
        | none => matchDateTail [a] (b :: rest)
      else matchDateTail [a] (b :: rest)
    else none

/-- Leftmost search for `date_pattern` (Python `re.search`): the first start
position admitting a match wins.  Returns the start index and the match. -/
def dateSearchAux : List Char → Nat → Option (Nat × DateMatch)
  | [], _ => none
  | c :: rest, i =>
    match matchDateAt (c :: rest) with
    | some m => some (i, m)
    | none => dateSearchAux rest (i + 1)

/-- Model of `re.search(self.date_pattern, s)`. -/
def dateSearch (s : List Char) : Option (Nat × DateMatch) :=
  dateSearchAux s 0

/-! ## Month table, calendar validity and ISO formatting -/

/-- The `french_months` dictionary of `TransactionParser.__init__`. -/
def frenchMonths (m : List Char) : Option Nat :=
  if m = "janv".data ∨ m = "jan".data then some 1
  else if m = "févr".data ∨ m = "fév".data ∨ m = "feb".data then some 2
  else if m = "mars".data ∨ m = "mar".data then some 3
  else if m = "avr".data ∨ m = "avril".data then some 4
  else if m = "mai".data then some 5
  else if m = "juin".data ∨ m = "jun".data then some 6
  else if m = "juil".data ∨ m = "juillet".data then some 7
  else if m = "août".data ∨ m = "aou".data ∨ m = "aout".data then some 8
  else if m = "sept".data ∨ m = "sep".data then some 9
  else if m = "oct".data ∨ m = "octobre".data then some 10
  else if m = "nov".data ∨ m = "novembre".data then some 11
  else if m = "déc".data ∨ m = "dec".data ∨ m = "décembre".data then some 12
  else none

/-- Days in a month of the proleptic Gregorian calendar used by
`datetime.datetime`. -/
def daysInMonth (y m : Nat) : Nat :=
  if m = 2 then (if y % 4 = 0 ∧ (y % 100 ≠ 0 ∨ y % 400 = 0) then 29 else 28)
  else if m = 4 ∨ m = 6 ∨ m = 9 ∨ m = 11 then 30
  else 31

/-- The `(year, month, day)` triples accepted by the `datetime.datetime`
constructor; everything else raises `ValueError`. -/
def validDate (y m d : Nat) : Bool :=
  decide (1 ≤ y ∧ y ≤ 9999 ∧ 1 ≤ m ∧ m ≤ 12 ∧ 1 ≤ d ∧ d ≤ daysInMonth y m)

/-- Two-digit zero padding, as in `strftime` fields `%m` and `%d`. -/
def pad2 (n : Nat) : List Char :=
  if n < 10 then '0' :: Nat.toDigits 10 n else Nat.toDigits 10 n

/-- Four-digit zero padding for `%Y` (the parser only ever formats years in
`[1000, 9999]`, where `%Y` is platform-independently the plain 4 digits). -/
def pad4 (n : Nat) : List Char :=
  if n < 10 then '0' :: '0' :: '0' :: Nat.toDigits 10 n
  else if n < 100 then '0' :: '0' :: Nat.toDigits 10 n
  else if n < 1000 then '0' :: Nat.toDigits 10 n
  else Nat.toDigits 10 n

/-- `date_obj.strftime(\x7b/\x7d)`-free model of `strftime('%Y-%m-%d')`. -/
def isoFormat (y m d : Nat) : List Char :=
  pad4 y ++ '-' :: (pad2 m ++ '-' :: pad2 d)

/-- The year-resolution cascade of `parse_date` (source lines 60-64): the
token's own 4-digit year wins, then the `year` argument, then the clock. -/
def resolveYear (nowYear : Nat) (tokenYear : Option Nat) (year : Option Nat) : Nat :=
  match tokenYear with
  | some ys => ys
  | none =>
    match year with
    | some fy => fy
    | none => nowYear

/-- The part of `parse_date` after the regex search succeeded with match
`dm` (source lines 51-68): month table lookup, year resolution, calendar
validation, ISO formatting.  The month key taken from group 2 is already
lowercase (the search runs on the lowered string) and can never contain a
dot (the class excludes it), so the source's `.lower().rstrip('.')` is the
identity on it. -/
def parse_dateFromMatch (nowYear : Nat) (dm : DateMatch) (year : Option Nat) : Option String :=
  match frenchMonths dm.month with
  | none => none
  | some mo =>
    if validDate (resolveYear nowYear dm.year year) mo dm.day
    then some ⟨isoFormat (resolveYear nowYear dm.year year) mo dm.day⟩ else none

/-- Model of `TransactionParser.parse_date`.  `nowYear` is the injected
`datetime.now().year` clock; `year` is the optional `year` parameter
(Python default `None`). -/
def parse_date (nowYear : Nat) (date_str : String) (year : Option Nat) : Option String :=
  match dateSearch (date_str.data.map pyLower) with
  | none => none
  | some im => parse_dateFromMatch nowYear im.2 year

/-! ## Amount parsing: `parse_amount` and the amount regex
`€\s*([+-]?\d{1,3}(?:[,.\s]\d{3})*[,.]?\d{0,2})` -/

/-- The syntactic decomposition of a Python float literal: sign, integer
part, fraction digits (value and count), exponent sign and exponent. -/
structure FloatParts where
  sign : ℤ
  ip : Nat
  fp : Nat
  fpLen : Nat
  esign : ℤ
  e : Nat
deriving DecidableEq

/-- The numeric value `float()` gives to a decomposed literal. -/
def ratOfParts (p : FloatParts) : ℚ :=
  (p.sign : ℚ) * ((p.ip : ℚ) + (p.fp : ℚ) / ((10 : ℚ) ^ p.fpLen))
    * (10 : ℚ) ^ (p.esign * (p.e : ℤ))

/-- Syntax recognition of Python `float(s)` on the strings this parser can
produce: optional surrounding whitespace, an optional sign, a decimal digit
string with at most one point (at least one digit overall), and an optional
exponent.  `inf`/`nan` and digit-group underscores are outside the model
(they cannot be represented in `ℚ` and no reachable input contains them);
any other string is rejected, as `float` rejects it with `ValueError`. -/
def pyFloatParts (s : List Char) : Option FloatParts :=
  let s := pyStrip s
  let signRest : ℤ × List Char :=
    match s with
    | '-' :: t => (-1, t)
    | '+' :: t => (1, t)
    | _ => (1, s)
  let sgn := signRest.1
  let s0 := signRest.2
  let ip := s0.takeWhile Char.isDigit
  let s1 := s0.dropWhile Char.isDigit
  let fpRest : List Char × List Char :=
    match s1 with
    | '.' :: t => (t.takeWhile Char.isDigit, t.dropWhile Char.isDigit)
    | _ => ([], s1)
  let fp := fpRest.1
  let s2 := fpRest.2
  if ip.isEmpty ∧ fp.isEmpty then none
  else
    match s2 with
    | [] => some ⟨sgn, digitsVal ip, digitsVal fp, fp.length, 1, 0⟩
    | e :: t =>
      if e = 'e' ∨ e = 'E' then
        let esignRest : ℤ × List Char :=
          match t with
          | '-' :: u => (-1, u)
          | '+' :: u => (1, u)
          | _ => (1, t)
        let ed := esignRest.2.takeWhile Char.isDigit
        let t2 := esignRest.2.dropWhile Char.isDigit
        if ed.isEmpty ∨ ¬ t2.isEmpty then none
        else some ⟨sgn, digitsVal ip, digitsVal fp, fp.length, esignRest.1, digitsVal ed⟩
      else none

/-- Model of Python `float(s)` as a rational: syntax recognition followed
by numeric valuation. -/
def pyFloat (s : List Char) : Option ℚ :=
  (pyFloatParts s).map ratOfParts

/-- The string rewriting performed by `parse_amount` before `float()`:
drop every `€`, strip, resolve the comma/dot decimal-separator convention,
and drop the remaining spaces. -/
def amountTransform (s0 : List Char) : List Char :=
  let s2 := pyStrip (s0.filter (fun c => c != '€'))
  let s3 :=
    if s2.contains ',' && s2.contains '.' then
      (s2.filter (fun c => c != '.')).map (fun c => if c = ',' then '.' else c)
    else if s2.contains ',' then
      s2.map (fun c => if c = ',' then '.' else c)
    else s2
  s3.filter (fun c => c != ' ')

/-- Model of `TransactionParser.parse_amount` on a character list: the
`try` block around `float` turns a `ValueError` into the return value
`0.0`. -/
def parse_amountL (l : List Char) : ℚ :=
  (pyFloat (amountTransform l)).getD 0

/-- Model of `TransactionParser.parse_amount`. -/
def parse_amount (amount_str : String) : ℚ :=
  parse_amountL amount_str.data

/-- One match of `amount_pattern`: `group` is group 1 (what `findall`
returns and `parse_amount` receives) and `len` the length of the whole
match starting at the `€`. -/
structure AmountMatch where
  group : List Char
  len : Nat
deriving DecidableEq

/-- The greedy star `(?:[,.\s]\d{3})*`: repeatedly consume one separator
followed by exactly three digits.  It never backtracks because everything
after it in the pattern can match the empty string. -/
def sepIter : List Char → List Char × List Char
  | c :: d1 :: d2 :: d3 :: rest =>
    if (c == ',' || c == '.' || isPySpace c) && d1.isDigit && d2.isDigit && d3.isDigit then
      let rec2 := sepIter rest
      (c :: d1 :: d2 :: d3 :: rec2.1, rec2.2)
    else ([], c :: d1 :: d2 :: d3 :: rest)
  | s => ([], s)

/-- Try to match `amount_pattern` anchored at the start of `s`.  `\d{1,3}`
takes the greedy maximum (at most three digits of the run) and never has to
give digits back, because every later piece of the pattern can match the
empty string. -/
def matchAmountAt (s : List Char) : Option AmountMatch :=
  match s with
  | '€' :: r0 =>
    let sp := r0.takeWhile isPySpace
    let r1 := r0.dropWhile isPySpace
    let signRest : List Char × List Char :=
      match r1 with
      | '+' :: t => (['+'], t)
      | '-' :: t => (['-'], t)
      | _ => ([], r1)
    let r2 := signRest.2
    let run := r2.takeWhile Char.isDigit
    if run.isEmpty then none
    else
      let d1 := run.take 3
      let r3 := r2.drop d1.length
      let iter := sepIter r3
      let sepRest : List Char × List Char :=
        match iter.2 with
        | c :: t => if c == ',' || c == '.' then ([c], t) else ([], iter.2)
        | [] => ([], iter.2)
      let tail2 := (sepRest.2.takeWhile Char.isDigit).take 2
      let grp := signRest.1 ++ d1 ++ iter.1 ++ sepRest.1 ++ tail2
      some { group := grp, len := 1 + sp.length + grp.length }
  | _ => none

/-- Scan for all non-overlapping matches of `amount_pattern`, left to
right, resuming after each whole match (`re.findall` semantics; the head of
the result is also the `re.search` result).  Each entry carries the index
of the `€` that starts the whole match.  `fuel` is the remaining length,
enough because every step consumes at least one character. -/
def amountScanAux : Nat → List Char → Nat → List (Nat × AmountMatch)
  | 0, _, _ => []
  | _ + 1, [], _ => []
  | fuel + 1, c :: rest, i =>
    match matchAmountAt (c :: rest) with
    | some m => (i, m) :: amountScanAux fuel (rest.drop (m.len - 1)) (i + m.len)
    | none => amountScanAux fuel rest (i + 1)

/-- All matches of `amount_pattern` in `s`, with their start offsets. -/
def amountMatches (s : List Char) : List (Nat × AmountMatch) :=
  amountScanAux s.length s 0

/-- The amount-role logic of `extract_amounts` (source lines 119-152),
applied to the already-parsed numeric list. -/
def resolveRoles : List ℚ → Option ℚ × Option ℚ × Option ℚ
  | [] => (none, none, none)
  | [_] => (none, none, none)
  | [a0, a1] => ((if a0 < 0 then some (abs a0) else some a0), none, some a1)
  | a0 :: a1 :: a2 :: rest =>
    ((if a0 > 0 then some a0 else none), some a1,
      some ((a2 :: rest).getLast (List.cons_ne_nil a2 rest)))

/-- Model of `TransactionParser.extract_amounts`. -/
def extract_amounts (s : List Char) : Option ℚ × Option ℚ × Option ℚ :=
  resolveRoles ((amountMatches s).map (fun am => parse_amountL am.2.group))

/-! ## Line classification, line parsing, document parsing -/

/-- Model of `TransactionParser.is_transaction_line`: a date pattern in the
lowered line, an amount pattern in the line, and length within 20 to 200
code points. -/
def is_transaction_line (line : String) : Bool :=
  (dateSearch (line.data.map pyLower)).isSome
  && !(amountMatches line.data).isEmpty
  && (decide (20 ≤ line.length) && decide (line.length ≤ 200))

/-- The transaction record built by `parse_transaction_line` (a Python
dict with five fixed keys; `date` and `description` are always present,
the three numeric fields are `None` when not determinable). -/
structure Transaction where
  date : String
  description : String
  amount_out : Option ℚ
  amount_in : Option ℚ
  balance : Option ℚ
deriving DecidableEq

/-- Auxiliary for whitespace collapsing: the flag records whether the
previous character was whitespace (already emitted as one space). -/
def collapseWsAux : Bool → List Char → List Char
  | _, [] => []
  | prevSpace, c :: rest =>
    if isPySpace c then
      if prevSpace then collapseWsAux true rest
      else ' ' :: collapseWsAux true rest
    else c :: collapseWsAux false rest

/-- Model of `re.sub(zero-or-more whitespace run, single space, s)` as used
on the description (each maximal whitespace run becomes one space). -/
def collapseWs (l : List Char) : List Char :=
  collapseWsAux false l

/-- Stage 3 of `parse_transaction_line` (source lines 198-225), after the
date has been resolved to `parsed_date` and the date match is known to end
at offset `date_end`: find the first amount in the remainder of the
original line, cut the description out between date and first amount, and
attach the extracted amount roles. -/
def parse_lineWithDate (line : String) (parsed_date : String) (date_end : Nat) :
    Option Transaction :=
  match (amountMatches (line.data.drop date_end)).head? with
  | none => none
  | some am =>
    some { date := parsed_date,
           description := ⟨collapseWs (pyStrip ((line.data.drop date_end).take am.1))⟩,
           amount_out := (extract_amounts (line.data.drop date_end)).1,
           amount_in := (extract_amounts (line.data.drop date_end)).2.1,
           balance := (extract_amounts (line.data.drop date_end)).2.2 }

/-- Stage 2 of `parse_transaction_line` (source lines 193-196): take
`group(0)` of the date match from the lowered line, resolve it through
`parse_date`, and fail the line when the date cannot be resolved. -/
def parse_lineFromMatch (nowYear : Nat) (line : String) (default_year : Option Nat)
    (i : Nat) (dm : DateMatch) : Option Transaction :=
  match parse_date nowYear ⟨((line.data.map pyLower).drop i).take dm.len⟩ default_year with
  | none => none
  | some parsed_date => parse_lineWithDate line parsed_date (i + dm.len)

/-- Model of `TransactionParser.parse_transaction_line`.  The date match
runs on the lowered line and `group(0)` is taken from the lowered line;
the description slice and the amount extraction use the original line from
the date-match end (lowering is length-preserving). -/
def parse_transaction_line (nowYear : Nat) (line : String) (default_year : Option Nat) :
    Option Transaction :=
  if is_transaction_line line then
    match dateSearch (line.data.map pyLower) with
    | none => none
    | some im => parse_lineFromMatch nowYear line default_year im.1 im.2
  else none

/-- Search for the year regex `\b(20\d{2})\b`: a standalone `20dd` token,
where standalone means bordered by non-word characters or the string ends.
`prev` is the character just before the current position. -/
def yearScanAux : Option Char → List Char → Option Nat
  | prev, a :: b :: c :: d :: rest =>
    if a == '2' && b == '0' && c.isDigit && d.isDigit
        && (match prev with | some p => !isWordChar p | none => true)
        && (match rest.head? with | some e => !isWordChar e | none => true) then
      some (digitsVal [a, b, c, d])
    else yearScanAux (some a) (b :: c :: d :: rest)
  | _, _ => none

/-- The year-discovery loop of `parse_transactions` over a list of lines:
first line with a `\b(20\d{2})\b` match wins. -/
def findDocYear : List String → Option Nat
  | [] => none
  | l :: rest =>
    match yearScanAux none l.data with
    | some y => some y
    | none => findDocYear rest

/-- The per-line collection loop of `parse_transactions` (before sorting):
every line of the document is parsed with the resolved fallback year `fy`,
failures are dropped. -/
def collectTransactions (nowYear : Nat) (lines : List String) (fy : Nat) : List Transaction :=
  lines.filterMap (fun l => parse_transaction_line nowYear l (some fy))

/-- The comparison used by `transactions.sort(key=lambda x: date)`:
Python compares the ISO date strings lexicographically. -/
def dateLe (a b : Transaction) : Bool :=
  decide (a.date ≤ b.date)

/-- Model of `TransactionParser.parse_transactions`.  `nowYear` injects
`datetime.now().year`; Python `list.sort` is stable, which `mergeSort`
models exactly (any two stable sorts under the same key agree). -/
def parse_transactions (nowYear : Nat) (lines : List String) : List Transaction :=
  (collectTransactions nowYear lines ((findDocYear (lines.take 10)).getD nowYear)).mergeSort dateLe

/-! ## General rewriting lemmas for the staged parser -/

theorem resolveYear_none_eq (nw : Nat) (ty : Option Nat) :
    resolveYear nw ty none = resolveYear nw ty (some nw) := by
  cases ty <;> rfl

theorem parse_date_search (nw : Nat) (s : String) (fb : Option Nat) (i : Nat)
    (dm : DateMatch) (h : dateSearch (s.data.map pyLower) = some (i, dm)) :
    parse_date nw s fb = parse_dateFromMatch nw dm fb := by
  unfold parse_date
  rw [h]

theorem parse_dateFromMatch_month (nw : Nat) (dm : DateMatch) (fb : Option Nat) (mo : Nat)
    (hm : frenchMonths dm.month = some mo) :
    parse_dateFromMatch nw dm fb =
      if validDate (resolveYear nw dm.year fb) mo dm.day
      then some ⟨isoFormat (resolveYear nw dm.year fb) mo dm.day⟩ else none := by
  unfold parse_dateFromMatch
  rw [hm]

theorem parse_dateFromMatch_none_eq (nw : Nat) (dm : DateMatch) :
    parse_dateFromMatch nw dm none = parse_dateFromMatch nw dm (some nw) := by
  unfold parse_dateFromMatch
  rw [resolveYear_none_eq]

theorem parse_transaction_line_pos (nw : Nat) (line : String) (fb : Option Nat)
    (i : Nat) (dm : DateMatch) (h1 : is_transaction_line line = true)
    (h2 : dateSearch (line.data.map pyLower) = some (i, dm)) :
    parse_transaction_line nw line fb = parse_lineFromMatch nw line fb i dm := by
  unfold parse_transaction_line
  rw [if_pos h1, h2]

theorem parse_transaction_line_neg (nw : Nat) (line : String) (fb : Option Nat)
    (h1 : is_transaction_line line = false) :
    parse_transaction_line nw line fb = none := by
  unfold parse_transaction_line
  rw [if_neg (by simp [h1])]

theorem parse_lineFromMatch_date (nw : Nat) (line : String) (fb : Option Nat)
    (i : Nat) (dm : DateMatch) (d : String)
    (h : parse_date nw ⟨((line.data.map pyLower).drop i).take dm.len⟩ fb = some d) :
    parse_lineFromMatch nw line fb i dm = parse_lineWithDate line d (i + dm.len) := by
  unfold parse_lineFromMatch
  rw [h]

/-! ## Evaluation lemmas for amounts -/

theorem parse_amountL_eval (l : List Char) (p : FloatParts)
    (h : pyFloatParts (amountTransform l) = some p) : parse_amountL l = ratOfParts p := by
  unfold parse_amountL pyFloat
  rw [h]
  rfl

theorem parse_amountL_fail (l : List Char)
    (h : pyFloatParts (amountTransform l) = none) : parse_amountL l = 0 := by
  unfold parse_amountL pyFloat
  rw [h]
  rfl

theorem parse_lineWithDate_eq (line pd : String) (date_end : Nat)
    (a : Nat × AmountMatch) (tl : List (Nat × AmountMatch))
    (h : amountMatches (line.data.drop date_end) = a :: tl) :
    parse_lineWithDate line pd date_end =
      some { date := pd,
             description := ⟨collapseWs (pyStrip ((line.data.drop date_end).take a.1))⟩,
             amount_out := (resolveRoles ((a :: tl).map (fun am => parse_amountL am.2.group))).1,
             amount_in := (resolveRoles ((a :: tl).map (fun am => parse_amountL am.2.group))).2.1,
             balance := (resolveRoles ((a :: tl).map (fun am => parse_amountL am.2.group))).2.2 } := by
  unfold parse_lineWithDate extract_amounts
  rw [h]
  rfl

/-! ## Lemmas about the year scan and the sort order -/

theorem isDigit_bounds (c : Char) (h : c.isDigit = true) : 48 ≤ c.toNat ∧ c.toNat ≤ 57 := by
  simp only [Char.isDigit, Bool.and_eq_true, decide_eq_true_eq] at h
  obtain ⟨h1, h2⟩ := h
  rw [ge_iff_le, UInt32.le_def, BitVec.le_def] at h1
  rw [UInt32.le_def, BitVec.le_def] at h2
  exact ⟨h1, h2⟩

theorem yearScanAux_bounds : ∀ (n : Nat) (prev : Option Char) (l : List Char),
    l.length ≤ n → ∀ y, yearScanAux prev l = some y → 2000 ≤ y ∧ y ≤ 2099 := by
  intro n
  induction n with
  | zero =>
    intro prev l hl y h
    cases l with
    | nil => simp [yearScanAux] at h
    | cons a t => simp at hl
  | succ n ih =>
    intro prev l hl y h
    rcases l with _ | ⟨a, _ | ⟨b, _ | ⟨c, _ | ⟨d, rest⟩⟩⟩⟩
    · simp [yearScanAux] at h
    · simp [yearScanAux] at h
    · simp [yearScanAux] at h
    · simp [yearScanAux] at h
    · simp only [yearScanAux] at h
      split at h
      · next hcond =>
        obtain rfl : digitsVal [a, b, c, d] = y := Option.some.inj h
        simp only [Bool.and_eq_true, beq_iff_eq] at hcond
        obtain ⟨⟨⟨⟨⟨ha, hb⟩, hc⟩, hd⟩, hprev⟩, hnext⟩ := hcond
        subst ha
        subst hb
        obtain ⟨hc1, hc2⟩ := isDigit_bounds c hc
        obtain ⟨hd1, hd2⟩ := isDigit_bounds d hd
        have h2 : ('2' : Char).toNat = 50 := rfl
        have h0 : ('0' : Char).toNat = 48 := rfl
        simp only [digitsVal, List.foldl, h2, h0]
        omega
      · next hcond =>
        have hlen : (b :: c :: d :: rest).length ≤ n := by
          simp at hl ⊢
          omega
        exact ih (some a) (b :: c :: d :: rest) hlen y h

theorem findDocYear_bounds : ∀ (L : List String) (y : Nat),
    findDocYear L = some y → 2000 ≤ y ∧ y ≤ 2099 := by
  intro L
  induction L with
  | nil => intro y h; simp [findDocYear] at h
  | cons l rest ih =>
    intro y h
    rw [findDocYear] at h
    cases hscan : yearScanAux none l.data with
    | some z =>
      rw [hscan] at h
      obtain rfl : z = y := Option.some.inj h
      exact yearScanAux_bounds l.data.length none l.data le_rfl z hscan
    | none =>
      rw [hscan] at h
      exact ih y h

theorem dateLe_trans (a b c : Transaction) (hab : dateLe a b) (hbc : dateLe b c) : dateLe a c := by
  simp only [dateLe, decide_eq_true_eq] at *
  exact le_trans hab hbc

theorem dateLe_total (a b : Transaction) : dateLe a b || dateLe b a := by
  rcases le_total a.date b.date with h | h <;> simp [dateLe, h]

/-! ## The claims -/

/-- C1, counterexample: on the line `1 avr. 2025 Cigusto Orleans €5.90 €30.61`
the parser does NOT return the record the spec displays, because the spec
shows date `2025-04-04` while the line's day token is `1`. -/
theorem C1_counterexample :
    parse_transaction_line 2030 "1 avr. 2025 Cigusto Orleans €5.90 €30.61" (some 2030)
      ≠ some { date := "2025-04-04", description := "Cigusto Orleans",
               amount_out := some 5.90, amount_in := none, balance := some 30.61 } := by
  decide

/-- C1, amended: for any clock year and any fallback year, the line
`1 avr. 2025 Cigusto Orleans €5.90 €30.61` parses to the Transaction with
date `2025-04-01` (day 1), description `Cigusto Orleans`, amount_out 5.90,
amount_in absent, balance 30.61. -/
theorem C1_line_cigusto (nowYear fy : Nat) :
    parse_transaction_line nowYear "1 avr. 2025 Cigusto Orleans €5.90 €30.61" (some fy)
      = some { date := "2025-04-01", description := "Cigusto Orleans",
               amount_out := some 5.90, amount_in := none, balance := some 30.61 } := by
  rw [parse_transaction_line_pos nowYear _ (some fy) 0 ⟨1, "avr".data, some 2025, 11⟩
        (by decide) (by decide)]
  rw [parse_lineFromMatch_date nowYear _ (some fy) 0 _ "2025-04-01" ?hd]
  case hd =>
    rw [parse_date_search nowYear _ (some fy) 0 ⟨1, "avr".data, some 2025, 11⟩ (by decide)]
    rw [parse_dateFromMatch_month nowYear _ (some fy) 4 (by decide)]
    simp only [resolveYear]
    decide
  rw [show (0 + (⟨1, "avr".data, some 2025, 11⟩ : DateMatch).len) = 11 from rfl]
  rw [parse_lineWithDate_eq _ _ _ ((17, ⟨"5.90".data, 5⟩) : Nat × AmountMatch)
        [((23, ⟨"30.61".data, 6⟩) : Nat × AmountMatch)] (by decide)]
  simp only [List.map]
  rw [parse_amountL_eval ((17, (⟨"5.90".data, 5⟩ : AmountMatch)) : Nat × AmountMatch).2.group
        ⟨1, 5, 90, 2, 1, 0⟩ (by decide)]
  rw [parse_amountL_eval ((23, (⟨"30.61".data, 6⟩ : AmountMatch)) : Nat × AmountMatch).2.group
        ⟨1, 30, 61, 2, 1, 0⟩ (by decide)]
  simp only [resolveRoles, Option.some.injEq, Transaction.mk.injEq]
  norm_num [ratOfParts]
  decide

/-- C1, amended, witness at clock 2030 and fallback 2030. -/
theorem C1_line_cigusto_witness :
    parse_transaction_line 2030 "1 avr. 2025 Cigusto Orleans €5.90 €30.61" (some 2030)
      = some { date := "2025-04-01", description := "Cigusto Orleans",
               amount_out := some 5.90, amount_in := none, balance := some 30.61 } :=
  C1_line_cigusto 2030 2030

/-- C2: the role-resolution heuristic of `extract_amounts`.  With exactly
two amounts the balance is the second, `amount_out` is the first (absolute
value when negative) and `amount_in` stays absent; with three or more the
balance is the last, `amount_out` is the first exactly when it is positive
and `amount_in` is the second; with fewer than two amounts all three roles
are absent. -/
theorem C2_resolveRoles :
    (∀ a0 a1 : ℚ, resolveRoles [a0, a1]
        = ((if 0 ≤ a0 then some a0 else some (abs a0)), none, some a1)) ∧
    (∀ (a0 a1 : ℚ) (rest : List ℚ) (h : rest ≠ []),
        resolveRoles (a0 :: a1 :: rest)
          = ((if 0 < a0 then some a0 else none), some a1, some (rest.getLast h))) ∧
    (∀ l : List ℚ, l.length ≤ 1 → resolveRoles l = (none, none, none)) := by
  refine ⟨?_, ?_, ?_⟩
  · intro a0 a1
    rcases lt_or_le a0 0 with h | h
    · simp [resolveRoles, h, not_le.mpr h]
    · simp [resolveRoles, not_lt.mpr h, h]
  · intro a0 a1 rest h
    cases rest with
    | nil => exact absurd rfl h
    | cons a2 r => rfl
  · intro l hl
    match l with
    | [] => rfl
    | [a] => rfl
    | a :: b :: t => simp at hl

/-- C2, witness on the lists `[-3, 2]`, `[0, 5, 7]` and `[9]`. -/
theorem C2_resolveRoles_witness :
    resolveRoles [(-3 : ℚ), 2] = (some 3, none, some 2) ∧
    resolveRoles [(0 : ℚ), 5, 7] = (none, some 5, some 7) ∧
    resolveRoles [(9 : ℚ)] = (none, none, none) := by
  refine ⟨?_, ?_, ?_⟩
  · rw [C2_resolveRoles.1 (-3) 2]
    norm_num
  · rw [C2_resolveRoles.2.1 0 5 [7] (by simp)]
    norm_num
  · exact C2_resolveRoles.2.2 [9] (by simp)

/-- C3: `parse_amount` is total by construction, returns 0 whenever the
transformed token is not a float literal, and takes the spec's four example
values. -/
theorem C3_parse_amount :
    (∀ s : String, pyFloat (amountTransform s.data) = none → parse_amount s = 0) ∧
    parse_amount "€5.90" = 5.90 ∧
    parse_amount "€1.234,56" = 1234.56 ∧
    parse_amount "€590,00" = 590.00 ∧
    parse_amount "garbage" = 0.0 := by
  refine ⟨?_, ?_, ?_, ?_, ?_⟩
  · intro s h
    unfold parse_amount parse_amountL
    rw [h]
    rfl
  · rw [show parse_amount "€5.90" = parse_amountL "€5.90".data from rfl,
        parse_amountL_eval _ ⟨1, 5, 90, 2, 1, 0⟩ (by decide)]
    norm_num [ratOfParts]
  · rw [show parse_amount "€1.234,56" = parse_amountL "€1.234,56".data from rfl,
        parse_amountL_eval _ ⟨1, 1234, 56, 2, 1, 0⟩ (by decide)]
    norm_num [ratOfParts]
  · rw [show parse_amount "€590,00" = parse_amountL "€590,00".data from rfl,
        parse_amountL_eval _ ⟨1, 590, 0, 2, 1, 0⟩ (by decide)]
    norm_num [ratOfParts]
  · rw [show parse_amount "garbage" = parse_amountL "garbage".data from rfl,
        parse_amountL_fail _ (by decide)]
    norm_num

/-- C3, witness: the universally quantified conjunct applied to `garbage`. -/
theorem C3_parse_amount_witness : parse_amount "garbage" = 0 :=
  C3_parse_amount.1 "garbage" (by decide)

/-- C4: `parse_date` prefers the token's own 4-digit year over the
fallback, resolves months case-insensitively, and rejects impossible
calendar dates (31 April) for every clock and fallback instead of
clamping. -/
theorem C4_parse_date :
    (∀ clock : Nat, parse_date clock "4 avr. 2025" (some 2020) = some "2025-04-04") ∧
    (∀ clock : Nat, parse_date clock "4 AVR. 2025" (some 2020) = some "2025-04-04") ∧
    (∀ clock : Nat, parse_date clock "15 janv" (some 2025) = some "2025-01-15") ∧
    (∀ (clock : Nat) (fb : Option Nat), parse_date clock "31 avr. 2025" fb = none) := by
  refine ⟨?_, ?_, ?_, ?_⟩
  · intro clock
    rw [parse_date_search clock _ (some 2020) 0 ⟨4, "avr".data, some 2025, 11⟩ (by decide),
        parse_dateFromMatch_month clock _ (some 2020) 4 (by decide)]
    simp only [resolveYear]
    decide
  · intro clock
    rw [parse_date_search clock _ (some 2020) 0 ⟨4, "avr".data, some 2025, 11⟩ (by decide),
        parse_dateFromMatch_month clock _ (some 2020) 4 (by decide)]
    simp only [resolveYear]
    decide
  · intro clock
    rw [parse_date_search clock _ (some 2025) 0 ⟨15, "janv".data, none, 7⟩ (by decide),
        parse_dateFromMatch_month clock _ (some 2025) 1 (by decide)]
    simp only [resolveYear]
    decide
  · intro clock fb
    rw [parse_date_search clock _ fb 0 ⟨31, "avr".data, some 2025, 12⟩ (by decide),
        parse_dateFromMatch_month clock _ fb 4 (by decide)]
    simp only [resolveYear]
    decide

/-- C4, witness at clock 1999 (and fallback `some 7` for the failing date). -/
theorem C4_parse_date_witness :
    parse_date 1999 "4 avr. 2025" (some 2020) = some "2025-04-04" ∧
    parse_date 1999 "4 AVR. 2025" (some 2020) = some "2025-04-04" ∧
    parse_date 1999 "15 janv" (some 2025) = some "2025-01-15" ∧
    parse_date 1999 "31 avr. 2025" (some 7) = none :=
  ⟨C4_parse_date.1 1999, C4_parse_date.2.1 1999, C4_parse_date.2.2.1 1999,
   C4_parse_date.2.2.2 1999 (some 7)⟩

/-- C5, counterexample: the date token `4 avr.` has no 4-digit year, no
fallback year is supplied, and yet `parse_date` does not fail: it silently
uses the clock year (here 2025). -/
theorem C5_counterexample :
    parse_date 2025 "4 avr." none = some "2025-04-04" := by decide

/-- C5, amended: when no fallback year is supplied, `parse_date` behaves
exactly as if the current clock year had been supplied as the fallback —
it silently defaults to the clock year rather than failing. -/
theorem C5_clock_default (clock : Nat) (s : String) :
    parse_date clock s none = parse_date clock s (some clock) := by
  unfold parse_date
  simp only [parse_dateFromMatch_none_eq]

/-- C5, amended, witness at clock 2025 on the year-free token `4 avr.`. -/
theorem C5_clock_default_witness :
    parse_date 2025 "4 avr." none = parse_date 2025 "4 avr." (some 2025) :=
  C5_clock_default 2025 "4 avr."

/-- C6: the output of `parse_transactions` is sorted non-decreasingly by
the date string, and among transactions with equal dates the output keeps
the order in which their source lines produced them (stability, stated as
filter-equality against the unsorted collection list). -/
theorem C6_sorted_stable (nowYear : Nat) (lines : List String) :
    List.Pairwise (fun a b : Transaction => a.date ≤ b.date) (parse_transactions nowYear lines) ∧
    ∀ d : String,
      (parse_transactions nowYear lines).filter (fun t => t.date == d)
        = (collectTransactions nowYear lines ((findDocYear (lines.take 10)).getD nowYear)).filter
            (fun t => t.date == d) := by
  constructor
  · have hp := List.sorted_mergeSort dateLe_trans dateLe_total
      (collectTransactions nowYear lines ((findDocYear (lines.take 10)).getD nowYear))
    unfold parse_transactions
    exact hp.imp (fun h => by simpa [dateLe, decide_eq_true_eq] using h)
  · intro d
    have hfil : (List.filter (fun t => t.date == d)
        (collectTransactions nowYear lines ((findDocYear (lines.take 10)).getD nowYear))).Pairwise
          (fun a b => dateLe a b) := by
      apply List.pairwise_of_forall_mem_list
      intro a ha b hb
      have hda : a.date = d := by
        have := (List.mem_filter.mp ha).2
        simpa using this
      have hdb : b.date = d := by
        have := (List.mem_filter.mp hb).2
        simpa using this
      simp [dateLe, hda, hdb]
    have hsub : (List.filter (fun t => t.date == d)
          (collectTransactions nowYear lines ((findDocYear (lines.take 10)).getD nowYear))).Sublist
        (List.mergeSort (collectTransactions nowYear lines
          ((findDocYear (lines.take 10)).getD nowYear)) dateLe) :=
      List.sublist_mergeSort dateLe_trans dateLe_total hfil (List.filter_sublist _)
    have hsub2 := hsub.filter (fun t => t.date == d)
    rw [List.filter_filter] at hsub2
    have hff : List.filter (fun a => (a.date == d) && (a.date == d))
          (collectTransactions nowYear lines ((findDocYear (lines.take 10)).getD nowYear))
        = List.filter (fun t => t.date == d)
            (collectTransactions nowYear lines ((findDocYear (lines.take 10)).getD nowYear)) := by
      simp [Bool.and_self]
    rw [hff] at hsub2
    have hperm := (List.mergeSort_perm (collectTransactions nowYear lines
        ((findDocYear (lines.take 10)).getD nowYear)) dateLe).filter (fun t => t.date == d)
    unfold parse_transactions
    exact (hsub2.eq_of_length hperm.length_eq.symm).symm

/-- C6, witness on a concrete two-line document. -/
theorem C6_sorted_stable_witness :
    List.Pairwise (fun a b : Transaction => a.date ≤ b.date)
      (parse_transactions 2025
        ["4 avr. Grocery store Lyon €1,00 €2,00", "2 janv. Bakery in Paris abc €3,00 €4,00"]) ∧
    (parse_transactions 2025
        ["4 avr. Grocery store Lyon €1,00 €2,00", "2 janv. Bakery in Paris abc €3,00 €4,00"]).filter
          (fun t => t.date == "2025-04-04")
      = (collectTransactions 2025
          ["4 avr. Grocery store Lyon €1,00 €2,00", "2 janv. Bakery in Paris abc €3,00 €4,00"]
          ((findDocYear ((["4 avr. Grocery store Lyon €1,00 €2,00",
              "2 janv. Bakery in Paris abc €3,00 €4,00"] : List String).take 10)).getD 2025)).filter
          (fun t => t.date == "2025-04-04") :=
  ⟨(C6_sorted_stable 2025 _).1, (C6_sorted_stable 2025 _).2 "2025-04-04"⟩

/-- C7: the fallback year of `parse_transactions` is the first standalone
`20dd` token of the first 10 lines, always in `[2000, 2099]`; when no such
token exists the clock year is used for the whole document, and a date
token without its own year is then dated in the clock year. -/
theorem C7_fallback_year (nowYear : Nat) (lines : List String) :
    (∀ y, findDocYear (lines.take 10) = some y →
        (findDocYear (lines.take 10)).getD nowYear = y ∧ 2000 ≤ y ∧ y ≤ 2099) ∧
    (findDocYear (lines.take 10) = none →
        (findDocYear (lines.take 10)).getD nowYear = nowYear ∧
        parse_transactions nowYear lines
          = List.mergeSort (lines.filterMap
              (fun l => parse_transaction_line nowYear l (some nowYear))) dateLe) ∧
    (∀ (tok : String) (clock : Nat) (i : Nat) (dm : DateMatch) (mo : Nat),
        dateSearch (tok.data.map pyLower) = some (i, dm) → dm.year = none →
        frenchMonths dm.month = some mo →
        parse_date clock tok (some nowYear)
          = if validDate nowYear mo dm.day then some ⟨isoFormat nowYear mo dm.day⟩ else none) := by
  refine ⟨?_, ?_, ?_⟩
  · intro y h
    refine ⟨by rw [h]; rfl, findDocYear_bounds _ y h⟩
  · intro h
    refine ⟨by rw [h]; rfl, ?_⟩
    unfold parse_transactions collectTransactions
    rw [h]
    rfl
  · intro tok clock i dm mo hs hy hm
    rw [parse_date_search clock tok (some nowYear) i dm hs,
        parse_dateFromMatch_month clock dm (some nowYear) mo hm, hy]
    simp only [resolveYear]

/-- C7, witness: a document whose first line holds `2025`, a document with
no year token, and the year-free token `4 avr.` dated in the fallback. -/
theorem C7_fallback_year_witness :
    ((findDocYear (["Relevé 2025"].take 10)).getD 2024 = 2025 ∧ 2000 ≤ 2025 ∧ 2025 ≤ 2099) ∧
    ((findDocYear (["aaa bbb ccc"].take 10)).getD 2024 = 2024 ∧
      parse_transactions 2024 ["aaa bbb ccc"]
        = List.mergeSort (["aaa bbb ccc"].filterMap
            (fun l => parse_transaction_line 2024 l (some 2024))) dateLe) ∧
    (parse_date 7 "4 avr." (some 2024)
        = if validDate 2024 4 4 then some ⟨isoFormat 2024 4 4⟩ else none) :=
  ⟨(C7_fallback_year 2024 ["Relevé 2025"]).1 2025 (by decide),
   (C7_fallback_year 2024 ["aaa bbb ccc"]).2.1 (by decide),
   (C7_fallback_year 2024 ["aaa bbb ccc"]).2.2 "4 avr." 7 0 ⟨4, "avr".data, none, 6⟩ 4
     (by decide) rfl (by decide)⟩

/-- C8: a line shorter than 20 characters, or longer than 200, or with no
amount-pattern match, or with no date-pattern match in its lowered form,
never yields a Transaction. -/
theorem C8_classifier_reject (clock : Nat) (year : Option Nat) (line : String)
    (h : line.length < 20 ∨ 200 < line.length
        ∨ amountMatches line.data = [] ∨ dateSearch (line.data.map pyLower) = none) :
    parse_transaction_line clock line year = none := by
  apply parse_transaction_line_neg
  rcases h with h | h | h | h
  · have h20 : ¬ (20 ≤ line.length) := by omega
    simp [is_transaction_line, h20]
  · have h200 : ¬ (line.length ≤ 200) := by omega
    simp [is_transaction_line, h200]
  · simp [is_transaction_line, h]
  · simp [is_transaction_line, h]

/-- C8, witness: an 11-character line with a valid date and amount is
still rejected. -/
theorem C8_classifier_reject_witness :
    parse_transaction_line 2025 "2 avr €1.00" (some 2025) = none :=
  C8_classifier_reject 2025 (some 2025) "2 avr €1.00" (Or.inl (by decide))

/-- C9: a line that passes classification, whose remainder after the date
match holds exactly one amount token, and whose date resolves, still
yields a Transaction carrying that date (and a description), with
amount_out, amount_in and balance all absent. -/
theorem C9_single_amount (clock : Nat) (fy : Option Nat) (line : String)
    (i : Nat) (dm : DateMatch) (d : String)
    (hclass : is_transaction_line line = true)
    (hsearch : dateSearch (line.data.map pyLower) = some (i, dm))
    (hone : (amountMatches (line.data.drop (i + dm.len))).length = 1)
    (hdate : parse_date clock ⟨((line.data.map pyLower).drop i).take dm.len⟩ fy = some d) :
    ∃ t, parse_transaction_line clock line fy = some t ∧
      t.date = d ∧ t.amount_out = none ∧ t.amount_in = none ∧ t.balance = none := by
  obtain ⟨a, ha⟩ := List.length_eq_one.mp hone
  rw [parse_transaction_line_pos clock line fy i dm hclass hsearch,
      parse_lineFromMatch_date clock line fy i dm d hdate,
      parse_lineWithDate_eq line d (i + dm.len) a [] ha]
  exact ⟨_, rfl, rfl, rfl, rfl, rfl⟩

/-- C9, witness on a 33-character line with one amount. -/
theorem C9_single_amount_witness :
    ∃ t, parse_transaction_line 1999 "15 janv Coffee Shop ABC DEF €5.90" (some 2025) = some t ∧
      t.date = "2025-01-15" ∧ t.amount_out = none ∧ t.amount_in = none ∧ t.balance = none :=
  C9_single_amount 1999 (some 2025) "15 janv Coffee Shop ABC DEF €5.90"
    0 ⟨15, "janv".data, none, 8⟩ "2025-01-15"
    (by decide) (by decide) (by decide)
    (by rw [parse_date_search 1999 _ (some 2025) 0 ⟨15, "janv".data, none, 8⟩ (by decide),
            parse_dateFromMatch_month 1999 _ (some 2025) 1 (by decide)]
        simp only [resolveYear]
        decide)

/-- C10: `parse_transactions` is deterministic — two runs on the same line
sequence with the same clock year give the same output; the model is a
pure function of exactly these two inputs, so no state survives a call. -/
theorem C10_deterministic (y1 y2 : Nat) (l1 l2 : List String)
    (hy : y1 = y2) (hl : l1 = l2) :
    parse_transactions y1 l1 = parse_transactions y2 l2 := by
  subst hy
  subst hl
  rfl

/-- C10, witness: two runs on a concrete document. -/
theorem C10_deterministic_witness :
    parse_transactions 2025 ["abc"] = parse_transactions 2025 ["abc"] :=
  C10_deterministic 2025 2025 ["abc"] ["abc"] rfl rfl

end BankOCR
